import Mathlib

/-!
Shallow embedding of the Scalpbot repository (src/bot.py and src/server.py).

Python floats are modelled as exact rationals (ℚ); Python strings as Lean
Strings.  Wall-clock time (`time.time()`) is passed explicitly as a rational
number of seconds.  Logging, console printing and the Telegram network calls
are side effects with no influence on the values computed here and are
dropped; where the code branches on the *outcome* of a network call
(src/server.py), that outcome is an explicit parameter.
-/

namespace Scalpbot

/-- The `MarketType` enum of src/bot.py (lines 26-30). -/
inductive MarketType where
  | FOREX
  | CRYPTO
  | STOCKS
  | COMMODITIES
deriving DecidableEq, Repr

/-- The `TimeFrame` enum of src/bot.py (lines 32-41). -/
inductive TimeFrame where
  | M1
  | M3
  | M5
  | M15
  | M30
  | H1
  | H4
  | D1
  | W1
deriving DecidableEq, Repr

/-- The `TimeFrame.value` attribute: the string value carried by each enum member. -/
def TimeFrame.value : TimeFrame → String
  | .M1 => "1M"
  | .M3 => "3M"
  | .M5 => "5M"
  | .M15 => "15M"
  | .M30 => "30M"
  | .H1 => "1H"
  | .H4 => "4H"
  | .D1 => "1D"
  | .W1 => "1W"

/-- Python's `needle in haystack` on strings, on lists of characters:
true iff `need` occurs as a contiguous substring of `hay`. -/
def hasSub : List Char → List Char → Bool
  | [], need => need.isEmpty
  | c :: rest, need => need.isPrefixOf (c :: rest) || hasSub rest need

/-- Python's `sub in s` for strings. -/
def strContains (s sub : String) : Bool :=
  hasSub s.toList sub.toList

/-- Python's `s.upper()` (character-wise, over the code points present in
this repository's symbols). -/
def pyUpper (s : String) : String :=
  String.mk (s.toList.map Char.toUpper)

/-- Python's `s.replace("/", "")`: drop every slash. -/
def dropSlashes (s : String) : String :=
  String.mk (s.toList.filter (fun c => c ≠ '/'))

/-- The `MarketProfile` dataclass of src/bot.py (lines 43-51). -/
structure MarketProfile where
  symbol : String
  market_type : MarketType
  avg_daily_range : ℚ
  spread : ℚ
  pip_value : ℚ := 10
  lot_size : ℚ := 100000
deriving DecidableEq, Repr

/-- The table `DynamicRiskManager.timeframe_stops` (src/bot.py lines 213-217). -/
def timeframe_stops : TimeFrame → ℚ
  | .M1 => 2
  | .M3 => 3
  | .M5 => 5
  | .M15 => 8
  | .M30 => 12
  | .H1 => 15
  | .H4 => 25
  | .D1 => 40
  | .W1 => 60

/-- The table `DynamicRiskManager.timeframe_rr_ratios` (src/bot.py lines 219-225). -/
def timeframe_rr_ratios : TimeFrame → List ℚ
  | .M1 => [1, 3/2, 2]
  | .M3 => [1, 2, 3]
  | .M5 => [3/2, 5/2, 7/2]
  | .M15 => [2, 3, 4]
  | .M30 => [2, 3, 4]
  | .H1 => [5/2, 7/2, 5]
  | .H4 => [3, 4, 6]
  | .D1 => [3, 5, 8]
  | .W1 => [4, 6, 10]

/-- The table `DynamicRiskManager.market_multipliers` (src/bot.py lines 227-232). -/
def market_multipliers : MarketType → ℚ
  | .FOREX => 1
  | .CRYPTO => 5/2
  | .STOCKS => 4/5
  | .COMMODITIES => 3/2

/-- The method `DynamicRiskManager.calculate_pip_size` (src/bot.py lines 234-243). -/
def calculate_pip_size (symbol : String) : ℚ :=
  let s := pyUpper symbol
  if strContains s "JPY" then 1/100
  else if strContains s "XAU" || strContains s "XAG" || strContains s "OIL" then 1/100
  else if strContains s "BTC" || strContains s "ETH" || strContains s "SOL" then 1
  else 1/10000

/-- Result dict of `calculate_stop_loss`. -/
structure StopData where
  stop_loss : ℚ
  stop_pips : ℚ
  stop_distance : ℚ
deriving DecidableEq, Repr

/-- The method `DynamicRiskManager.calculate_stop_loss` (src/bot.py lines 245-268).
The two dict lookups use `.get` with defaults 10 and 1.0 in the source;
since the keys range over the full enums here, every lookup hits. -/
def calculate_stop_loss (symbol : String) (entry_price : ℚ) (direction : String)
    (timeframe : TimeFrame) (market_type : MarketType) : StopData :=
  let base_stop := timeframe_stops timeframe
  let multiplier := market_multipliers market_type
  let stop_pips := base_stop * multiplier
  let pip_size := calculate_pip_size symbol
  let stop_distance := stop_pips * pip_size
  let stop_price :=
    if pyUpper direction == "SHORT" then entry_price + stop_distance
    else entry_price - stop_distance
  { stop_loss := stop_price, stop_pips := stop_pips, stop_distance := stop_distance }

/-- One take-profit level dict of `calculate_take_profits`. -/
structure TPLevel where
  level : ℕ
  price : ℚ
  pips : ℚ
  rr_ratio : ℚ
  distance : ℚ
deriving DecidableEq, Repr

/-- The `for i, ratio in enumerate(rr_ratios)` loop body of
`calculate_take_profits` (src/bot.py lines 280-296). -/
def tpLoop (entry_price stop_pips pip_size : ℚ) (direction : String) :
    ℕ → List ℚ → List TPLevel
  | _, [] => []
  | i, ratio :: rest =>
    let tp_pips := stop_pips * ratio
    let tp_distance := tp_pips * pip_size
    let tp_price :=
      if pyUpper direction == "SHORT" then entry_price - tp_distance
      else entry_price + tp_distance
    { level := i + 1, price := tp_price, pips := tp_pips,
      rr_ratio := ratio, distance := tp_distance }
      :: tpLoop entry_price stop_pips pip_size direction (i + 1) rest

/-- The method `DynamicRiskManager.calculate_take_profits` (src/bot.py lines 270-298). -/
def calculate_take_profits (entry_price stop_pips : ℚ) (direction : String)
    (timeframe : TimeFrame) (symbol : Option String) : List TPLevel :=
  let rr_ratios := timeframe_rr_ratios timeframe
  let pip_size := match symbol with
    | some s => calculate_pip_size s
    | none => 1/10000
  tpLoop entry_price stop_pips pip_size direction 0 rr_ratios

/-- Round-half-to-even to an integer (the tie rule of Python's `round`). -/
def roundHalfEven (q : ℚ) : ℤ :=
  let f := ⌊q⌋
  let r := q - f
  if r < 1/2 then f
  else if r > 1/2 then f + 1
  else if f % 2 = 0 then f else f + 1

/-- Python's `round(x, 2)`, on the exact rational value. -/
def round2 (q : ℚ) : ℚ :=
  (roundHalfEven (q * 100) : ℚ) / 100

/-- The method `DynamicRiskManager.calculate_position_size` (src/bot.py lines 300-318). -/
def calculate_position_size (account_balance risk_percent stop_pips pip_value : ℚ) : ℚ :=
  let risk_amount := account_balance * (risk_percent / 100)
  let position_size := if stop_pips > 0 then risk_amount / (stop_pips * pip_value) else 0
  let rounded := round2 position_size
  if rounded < 1/100 then 1/100 else rounded

/-- The method `AdaptiveTradingBot.initialize_market_profiles` (src/bot.py lines 362-389),
the `self.market_profiles` dict as an association list. -/
def initialize_market_profiles : List (String × MarketProfile) :=
  [("EURUSD", { symbol := "EURUSD", market_type := .FOREX, avg_daily_range := 70, spread := 1/10000, pip_value := 10 }),
   ("GBPUSD", { symbol := "GBPUSD", market_type := .FOREX, avg_daily_range := 90, spread := 12/100000, pip_value := 10 }),
   ("USDJPY", { symbol := "USDJPY", market_type := .FOREX, avg_daily_range := 65, spread := 1/100, pip_value := 927/100 }),
   ("EURCAD", { symbol := "EURCAD", market_type := .FOREX, avg_daily_range := 85, spread := 15/100000, pip_value := 15/2 }),
   ("AUDUSD", { symbol := "AUDUSD", market_type := .FOREX, avg_daily_range := 75, spread := 1/10000, pip_value := 10 }),
   ("NZDUSD", { symbol := "NZDUSD", market_type := .FOREX, avg_daily_range := 80, spread := 12/100000, pip_value := 10 }),
   ("USDCAD", { symbol := "USDCAD", market_type := .FOREX, avg_daily_range := 70, spread := 1/10000, pip_value := 10 }),
   ("BTCUSD", { symbol := "BTCUSD", market_type := .CRYPTO, avg_daily_range := 3000, spread := 5, pip_value := 1, lot_size := 1 }),
   ("ETHUSD", { symbol := "ETHUSD", market_type := .CRYPTO, avg_daily_range := 150, spread := 1/2, pip_value := 1, lot_size := 1 }),
   ("SOLUSD", { symbol := "SOLUSD", market_type := .CRYPTO, avg_daily_range := 10, spread := 1/10, pip_value := 1, lot_size := 1 }),
   ("XRPUSD", { symbol := "XRPUSD", market_type := .CRYPTO, avg_daily_range := 1/20, spread := 1/10000, pip_value := 1, lot_size := 1 }),
   ("XAUUSD", { symbol := "XAUUSD", market_type := .COMMODITIES, avg_daily_range := 1500, spread := 1/2, pip_value := 1 }),
   ("XAGUSD", { symbol := "XAGUSD", market_type := .COMMODITIES, avg_daily_range := 3/2, spread := 1/100, pip_value := 1 }),
   ("US30", { symbol := "US30", market_type := .STOCKS, avg_daily_range := 300, spread := 2, pip_value := 1 }),
   ("SPX500", { symbol := "SPX500", market_type := .STOCKS, avg_daily_range := 50, spread := 1/2, pip_value := 1 }),
   ("NAS100", { symbol := "NAS100", market_type := .STOCKS, avg_daily_range := 150, spread := 1, pip_value := 1 })]

/-- Python dict lookup in an association list (first binding wins). -/
def dictGet {α : Type} (k : String) (l : List (String × α)) : Option α :=
  (l.find? (fun p => p.1 == k)).map (fun p => p.2)

/-- Python's `any(tok in symbol for tok in toks)`. -/
def anyTok (symbol : String) (toks : List String) : Bool :=
  toks.any (fun t => strContains symbol t)

/-- The method `AdaptiveTradingBot.get_market_profile` (src/bot.py lines 391-406). -/
def get_market_profile (symbol : String) : MarketProfile :=
  let s := dropSlashes (pyUpper symbol)
  match dictGet s initialize_market_profiles with
  | some p => p
  | none =>
    if anyTok s ["BTC", "ETH", "SOL", "XRP", "ADA", "DOT"] then
      { symbol := s, market_type := .CRYPTO, avg_daily_range := 500, spread := 1, pip_value := 1, lot_size := 1 }
    else if anyTok s ["EUR", "GBP", "USD", "JPY", "CAD", "AUD", "NZD", "CHF"] then
      { symbol := s, market_type := .FOREX, avg_daily_range := 80, spread := 1/10000, pip_value := 10 }
    else if anyTok s ["XAU", "XAG", "OIL"] then
      { symbol := s, market_type := .COMMODITIES, avg_daily_range := 100, spread := 1/2, pip_value := 1 }
    else
      { symbol := s, market_type := .STOCKS, avg_daily_range := 50, spread := 1/10, pip_value := 1, lot_size := 100 }

/-- The trade-plan dict built by `AdaptiveTradingBot.calculate_trade_plan`
(src/bot.py lines 408-461); `calculated_at` (a wall-clock timestamp) is
dropped. -/
structure TradePlan where
  symbol : String
  direction : String
  market_type : String
  timeframe : String
  entry_price : ℚ
  stop_loss : ℚ
  stop_pips : ℚ
  take_profits : List TPLevel
  position_size : ℚ
  risk_amount : ℚ
  risk_percent : ℚ
  pip_value : ℚ
deriving DecidableEq, Repr

/-- The `MarketType.value` attribute. -/
def MarketType.value : MarketType → String
  | .FOREX => "FOREX"
  | .CRYPTO => "CRYPTO"
  | .STOCKS => "STOCKS"
  | .COMMODITIES => "COMMODITIES"

/-- The method `AdaptiveTradingBot.calculate_trade_plan` (src/bot.py lines 408-461);
`self.account_balance` and the resolved `risk_percent` are explicit
arguments. -/
def calculate_trade_plan (account_balance risk_percent : ℚ) (symbol direction : String)
    (entry_price : ℚ) (timeframe : TimeFrame) : TradePlan :=
  let market_profile := get_market_profile symbol
  let stop_data := calculate_stop_loss symbol entry_price direction timeframe
    market_profile.market_type
  let tp_levels := calculate_take_profits entry_price stop_data.stop_pips direction
    timeframe (some symbol)
  let position_size := calculate_position_size account_balance risk_percent
    stop_data.stop_pips market_profile.pip_value
  let risk_amount := account_balance * (risk_percent / 100)
  { symbol := symbol
    direction := direction
    market_type := market_profile.market_type.value
    timeframe := timeframe.value
    entry_price := entry_price
    stop_loss := stop_data.stop_loss
    stop_pips := stop_data.stop_pips
    take_profits := tp_levels
    position_size := position_size
    risk_amount := risk_amount
    risk_percent := risk_percent
    pip_value := market_profile.pip_value }

/-- The `tf_map` dict of `AdaptiveTradingBot.add_signal` (src/bot.py lines
473-477). -/
def tf_map : List (String × TimeFrame) :=
  [("1M", .M1), ("3M", .M3), ("5M", .M5),
   ("15M", .M15), ("30M", .M30), ("1H", .H1),
   ("4H", .H4), ("1D", .D1), ("1W", .W1)]

/-- The timeframe-normalization step of `AdaptiveTradingBot.add_signal`
(src/bot.py line 478): `tf_map.get(timeframe.upper(), TimeFrame.M3)`. -/
def normalizeTimeframe (timeframe : String) : TimeFrame :=
  (dictGet (pyUpper timeframe) tf_map).getD TimeFrame.M3

/-- One entry of `self.active_trades` as stored by
`AdaptiveTradingBot.execute_trade` (src/bot.py lines 559-568); the
wall-clock `entry_time` is dropped. -/
structure ActiveTrade where
  plan : TradePlan
  trade_id : String
  status : String
  current_pnl : ℚ
  current_price : ℚ
  max_profit : ℚ
  max_loss : ℚ
deriving DecidableEq, Repr

/-- The mutable state of an `AdaptiveTradingBot` touched by `add_signal`:
`account_balance`, `risk_percent`, `last_signal_time` and `active_trades`
(src/bot.py lines 329-335). -/
structure BotState where
  account_balance : ℚ
  risk_percent : ℚ
  last_signal_time : List (String × ℚ)
  active_trades : List (String × ActiveTrade)
deriving DecidableEq, Repr

/-- The `f"{symbol}_{direction}_{timeframe}"` duplicate-suppression key of
`add_signal` (src/bot.py line 490). -/
def signal_key (symbol direction timeframe : String) : String :=
  symbol ++ "_" ++ direction ++ "_" ++ timeframe

/-- The trade id `f"{symbol}_{datetime.now().strftime(...)}"` of
`execute_trade` (src/bot.py line 553); the formatted wall-clock timestamp is
abstracted to the numeric current time. -/
def trade_id_of (symbol : String) (now : ℚ) : String :=
  symbol ++ "_" ++ toString now.num ++ "_" ++ toString now.den

/-- The method `AdaptiveTradingBot.execute_trade` (src/bot.py lines 551-575): stores the
trade and returns its id. -/
def execute_trade (st : BotState) (plan : TradePlan) (now : ℚ) : String × BotState :=
  let tid := trade_id_of plan.symbol now
  let entry : ActiveTrade :=
    { plan := plan, trade_id := tid, status := "ACTIVE", current_pnl := 0,
      current_price := plan.entry_price, max_profit := 0, max_loss := 0 }
  (tid, { st with active_trades := (tid, entry) :: st.active_trades })

/-- The method `AdaptiveTradingBot.add_signal` (src/bot.py lines 463-529), with
`time.time()` passed in as `now`.  Returns `none` where the source returns
`False` (duplicate within the 300-second cooldown) and `some trade_id` on
success, together with the updated bot state.  The body raises no
exceptions, so the enclosing `try/except` never fires. -/
def add_signal (st : BotState) (symbol direction : String) (entry_price : ℚ)
    (timeframe : String) (now : ℚ) : Option String × BotState :=
  let timeframe_enum := normalizeTimeframe timeframe
  let key := signal_key symbol direction timeframe
  match dictGet key st.last_signal_time with
  | some t =>
    if now - t < 300 then (none, st)
    else
      let st1 := { st with last_signal_time := (key, now) :: st.last_signal_time }
      let plan := calculate_trade_plan st.account_balance st.risk_percent symbol
        direction entry_price timeframe_enum
      let (tid, st2) := execute_trade st1 plan now
      (some tid, st2)
  | none =>
    let st1 := { st with last_signal_time := (key, now) :: st.last_signal_time }
    let plan := calculate_trade_plan st.account_balance st.risk_percent symbol
      direction entry_price timeframe_enum
    let (tid, st2) := execute_trade st1 plan now
    (some tid, st2)

/-! ## src/server.py -/

/-- JSON values as handled by src/server.py. -/
inductive JVal where
  | str (s : String)
  | num (q : ℚ)
  | bool (b : Bool)
  | null
  | arr (xs : List JVal)
  | obj (fields : List (String × JVal))
deriving Repr

/-- Python's `str(...)` on a decoded JSON value, abstracted: the exact float
and container renderings are irrelevant to every claim, only the fact that a
string is produced. -/
def pyStr : JVal → String
  | .str s => s
  | .num q => toString q.num ++ "/" ++ toString q.den
  | .bool b => if b then "True" else "False"
  | .null => "None"
  | .arr _ => "[...]"
  | .obj _ => "\x7b...\x7d"

/-- Python's `dict.get(key, default)` over a decoded JSON object. -/
def jGet (fields : List (String × JVal)) (key : String) (dflt : JVal) : JVal :=
  ((fields.find? (fun p => p.1 == key)).map (fun p => p.2)).getD dflt

/-- The dict branch of `format_telegram_message` (src/server.py lines 22-59):
`'pair' in data` holds, so the formatted message is built and the flag is
`True`.  The emoji and timestamp text are abstracted to plain markers; every
claim about this function concerns only the flag and totality. -/
def formatDict (fields : List (String × JVal)) : String × Bool :=
  let action := pyStr (jGet fields "action" (.str "ALERT"))
  let pair := pyStr (jGet fields "pair" (.str "N/A"))
  let price := pyStr (jGet fields "price" (.str "N/A"))
  let reason := pyStr (jGet fields "reason" (.str ""))
  let emoji :=
    if strContains action "LONG" then "GREEN"
    else if strContains action "SHORT" then "RED"
    else if strContains action "EXIT" then "YELLOW"
    else "BOLT"
  let base := emoji ++ " *" ++ action ++ "* " ++ emoji ++ "\n"
    ++ "Pair: " ++ pair ++ "\n" ++ "Price: $" ++ price ++ "\n"
    ++ "Timeframe: " ++ pyStr (jGet fields "timeframe" (.str "N/A")) ++ "\n"
    ++ "Reason: " ++ reason ++ "\n"
  let base := match jGet fields "sl_price" .null with
    | .null => base
    | v => base ++ "SL: $" ++ pyStr v ++ "\n"
  let base := match jGet fields "tp_price" .null with
    | .null => base
    | v => base ++ "TP: $" ++ pyStr v ++ "\n"
  let base := base ++ "ADX: " ++ pyStr (jGet fields "adx_val" (.str "N/A")) ++ "\n"
    ++ "ATR: " ++ pyStr (jGet fields "atr" (.str "N/A")) ++ "\n"
    ++ "Volatility: " ++ pyStr (jGet fields "volatility" (.str "N/A")) ++ "%\n"
  (base ++ "\ntimestamp", true)

/-- The `except` branch of `format_telegram_message` (src/server.py line 64). -/
def formatFallback (data : JVal) : String × Bool :=
  ("Alert received but formatting failed: " ++ (pyStr data).take 200, false)

/-- The part of `format_telegram_message` after the string case: Python's
`'pair' in data` is key membership on a dict, substring membership on a
string, element membership on a list, and a `TypeError` on anything else; in
the non-dict cases where it succeeds, the subsequent `data.get` raises, and
every raise is caught by the function's `except`, yielding the fallback. -/
def formatCore (data orig : JVal) : String × Bool :=
  match data with
  | .obj fields =>
    if (fields.find? (fun p => p.1 == "pair")).isSome then formatDict fields
    else (pyStr data, false)
  | .str s =>
    if strContains s "pair" then formatFallback orig else (pyStr data, false)
  | .arr xs =>
    if xs.any (fun v => match v with | .str s => s == "pair" | _ => false) then
      formatFallback orig
    else (pyStr data, false)
  | _ => formatFallback orig

/-- The function `format_telegram_message` (src/server.py lines 15-64).  `loads` is the
`json.loads` library function, modelled abstractly (`none` = raises); the
function itself never raises: every internal failure lands in the fallback
branch. -/
def format_telegram_message (loads : String → Option JVal) (data : JVal) :
    String × Bool :=
  match data with
  | .str s =>
    match loads s with
    | some d => formatCore d data
    | none => formatFallback data
  | d => formatCore d d

/-- Outcome of a Python call that can raise. -/
inductive PyOutcome (α : Type) where
  | ok (a : α)
  | exc (msg : String)
deriving Repr

/-- The `/webhook` route handler (src/server.py lines 66-95).
`getJson` is the outcome of `request.get_json()` (which can raise, or return
`None`); `rawText` is `request.get_data(as_text=True)`; `loads` is
`json.loads` (`none` = raises, caught by the inner bare `except: pass`);
`send` is the outcome of `bot.send_message`.  Returns the HTTP status code
and the `status` field of the JSON body. -/
def webhook (getJson : PyOutcome (Option JVal)) (rawText : String)
    (loads : String → Option JVal) (send : PyOutcome Unit) : ℕ × String :=
  match getJson with
  | .exc _ => (500, "error")
  | .ok dataOpt =>
    let data : JVal := match dataOpt with
      | some d => d
      | none =>
        match loads rawText with
        | some d => d
        | none => .str rawText
    let _message := (format_telegram_message loads data).1
    match send with
    | .exc _ => (500, "error")
    | .ok _ => (200, "success")

/-! ## Helper definitions and lemmas -/

/-- Placeholder take-profit level, used as the `List.getD` default. -/
def dummyTP : TPLevel :=
  { level := 0, price := 0, pips := 0, rr_ratio := 0, distance := 0 }

/-- Price of the i-th (0-based) take-profit level of a trade plan. -/
def tpPrice (plan : TradePlan) (i : ℕ) : ℚ :=
  (plan.take_profits.getD i dummyTP).price

/-- Distance from entry of the i-th (0-based) take-profit level. -/
def tpDistance (plan : TradePlan) (i : ℕ) : ℚ :=
  (plan.take_profits.getD i dummyTP).distance

lemma timeframe_stops_pos (tf : TimeFrame) : 0 < timeframe_stops tf := by
  cases tf <;> norm_num [timeframe_stops]

lemma market_multipliers_pos (mt : MarketType) : 0 < market_multipliers mt := by
  cases mt <;> norm_num [market_multipliers]

lemma calculate_pip_size_pos (symbol : String) : 0 < calculate_pip_size symbol := by
  simp only [calculate_pip_size]
  split
  · norm_num
  · split
    · norm_num
    · split <;> norm_num

/-- A three-element list of rationals that is positive and strictly
ascending. -/
def asc3 : List ℚ → Prop
  | [a, b, c] => 0 < a ∧ a < b ∧ b < c
  | _ => False

lemma rr_ratios_asc (tf : TimeFrame) : asc3 (timeframe_rr_ratios tf) := by
  cases tf <;> simp only [timeframe_rr_ratios, asc3] <;> norm_num

lemma asc3_elim {l : List ℚ} (h : asc3 l) :
    ∃ a b c, l = [a, b, c] ∧ 0 < a ∧ a < b ∧ b < c := by
  match l with
  | [a, b, c] => exact ⟨a, b, c, rfl, h⟩
  | [] => exact absurd h (by simp [asc3])
  | [_] => exact absurd h (by simp [asc3])
  | [_, _] => exact absurd h (by simp [asc3])
  | _ :: _ :: _ :: _ :: _ => exact absurd h (by simp [asc3])

lemma dictGet_cons_self {α : Type} (k : String) (v : α) (l : List (String × α)) :
    dictGet k ((k, v) :: l) = some v := by
  simp [dictGet, List.find?]

lemma dictGet_cons_ne {α : Type} {k k' : String} (v : α) (l : List (String × α))
    (h : k' ≠ k) : dictGet k' ((k, v) :: l) = dictGet k' l := by
  simp only [dictGet, List.find?]
  have : (k == k') = false := by simpa using fun hk => h hk.symm
  simp [this]

lemma calculate_trade_plan_symbol (bal rp e : ℚ) (sym dir : String) (tf : TimeFrame) :
    (calculate_trade_plan bal rp sym dir e tf).symbol = sym := rfl

/-- The accepting path of `add_signal` when the key has never been seen. -/
lemma add_signal_accept_fresh (st : BotState) (sym dir : String) (e : ℚ)
    (tfs : String) (now : ℚ)
    (h : dictGet (signal_key sym dir tfs) st.last_signal_time = none) :
    (add_signal st sym dir e tfs now).1 = some (trade_id_of sym now) ∧
    (add_signal st sym dir e tfs now).2.last_signal_time =
      (signal_key sym dir tfs, now) :: st.last_signal_time := by
  simp [add_signal, h, execute_trade, calculate_trade_plan_symbol]

/-- The accepting path of `add_signal` when the key was last seen at least
300 seconds ago. -/
lemma add_signal_accept_stale (st : BotState) (sym dir : String) (e : ℚ)
    (tfs : String) (now t : ℚ)
    (h : dictGet (signal_key sym dir tfs) st.last_signal_time = some t)
    (hc : ¬ now - t < 300) :
    (add_signal st sym dir e tfs now).1 = some (trade_id_of sym now) := by
  simp [add_signal, h, hc, execute_trade, calculate_trade_plan_symbol]

/-- The rejecting path of `add_signal`: a duplicate key within the
300-second cooldown returns `False` and leaves the state untouched. -/
lemma add_signal_reject (st : BotState) (sym dir : String) (e : ℚ)
    (tfs : String) (now t : ℚ)
    (h : dictGet (signal_key sym dir tfs) st.last_signal_time = some t)
    (hc : now - t < 300) :
    add_signal st sym dir e tfs now = (none, st) := by
  simp [add_signal, h, hc]

/-- Chart-interval order on the `TimeFrame` enum (1m, 3m, 5m, 15m, 30m, 1H,
4H, 1D, 1W). -/
def tfIdx : TimeFrame → ℕ
  | .M1 => 0
  | .M3 => 1
  | .M5 => 2
  | .M15 => 3
  | .M30 => 4
  | .H1 => 5
  | .H4 => 6
  | .D1 => 7
  | .W1 => 8

lemma tp_chain (entry sp pip a b c : ℚ) (hsp : 0 < sp) (hpip : 0 < pip)
    (ha : 0 < a) (hab : a < b) (hbc : b < c) :
    (entry - sp * pip < entry ∧ entry < entry + sp * a * pip ∧
      entry + sp * a * pip < entry + sp * b * pip ∧
      entry + sp * b * pip < entry + sp * c * pip) ∧
    (entry < entry + sp * pip ∧ entry - sp * a * pip < entry ∧
      entry - sp * b * pip < entry - sp * a * pip ∧
      entry - sp * c * pip < entry - sp * b * pip) ∧
    (0 < sp * a * pip ∧ sp * a * pip < sp * b * pip ∧
      sp * b * pip < sp * c * pip) := by
  have h0 : 0 < sp * pip := mul_pos hsp hpip
  have h1 : 0 < sp * a * pip := mul_pos (mul_pos hsp ha) hpip
  have h2 : 0 < sp * (b - a) * pip := mul_pos (mul_pos hsp (sub_pos.mpr hab)) hpip
  have h3 : 0 < sp * (c - b) * pip := mul_pos (mul_pos hsp (sub_pos.mpr hbc)) hpip
  refine ⟨⟨?_, ?_, ?_, ?_⟩, ⟨?_, ?_, ?_, ?_⟩, ⟨?_, ?_, ?_⟩⟩ <;> nlinarith

/-! ## Claim theorems -/

/-- C1: for every symbol, timeframe, entry price, and direction in
LONG/SHORT, the trade plan produced by `calculate_trade_plan` (stop loss from
`calculate_stop_loss` plus three take-profit levels from
`calculate_take_profits`) satisfies: for LONG,
stop_loss < entry_price < TP1 < TP2 < TP3; for SHORT the inequalities are
inverted; and the take-profit distances from entry are strictly increasing
by level in both cases. -/
theorem c1_trade_plan_ordering (bal rp entry : ℚ) (sym dir : String)
    (tf : TimeFrame) (plan : TradePlan)
    (hplan : plan = calculate_trade_plan bal rp sym dir entry tf) :
    plan.take_profits.length = 3 ∧
    (0 < tpDistance plan 0 ∧ tpDistance plan 0 < tpDistance plan 1 ∧
      tpDistance plan 1 < tpDistance plan 2) ∧
    (dir = "LONG" →
      plan.stop_loss < entry ∧ entry < tpPrice plan 0 ∧
      tpPrice plan 0 < tpPrice plan 1 ∧ tpPrice plan 1 < tpPrice plan 2) ∧
    (dir = "SHORT" →
      entry < plan.stop_loss ∧ tpPrice plan 0 < entry ∧
      tpPrice plan 1 < tpPrice plan 0 ∧ tpPrice plan 2 < tpPrice plan 1) := by
  subst hplan
  obtain ⟨a, b, c, hl, ha, hab, hbc⟩ := asc3_elim (rr_ratios_asc tf)
  have hsp : 0 < timeframe_stops tf *
      market_multipliers (get_market_profile sym).market_type :=
    mul_pos (timeframe_stops_pos tf) (market_multipliers_pos _)
  have hpip : 0 < calculate_pip_size sym := calculate_pip_size_pos sym
  obtain ⟨hlong, hshort, hdist⟩ := tp_chain entry
    (timeframe_stops tf * market_multipliers (get_market_profile sym).market_type)
    (calculate_pip_size sym) a b c hsp hpip ha hab hbc
  simp only [calculate_trade_plan, calculate_stop_loss, calculate_take_profits,
    tpPrice, tpDistance, hl, tpLoop, List.getD, List.length_cons,
    List.length_nil, List.getElem?_cons_zero, List.getElem?_cons_succ,
    Option.getD_some]
  refine ⟨by trivial, ?_, ?_, ?_⟩
  · simpa [mul_assoc] using hdist
  · rintro rfl
    have hd : (pyUpper "LONG" == "SHORT") = false := rfl
    simp only [hd, Bool.false_eq_true, if_false]
    simpa [mul_assoc] using hlong
  · rintro rfl
    have hd : (pyUpper "SHORT" == "SHORT") = true := rfl
    simp only [hd, if_true]
    simpa [mul_assoc] using hshort

/-- Witness for C1: concrete LONG and SHORT instantiations (EURUSD LONG on
the 3-minute chart at entry 1.085; XAUUSD SHORT on the 4-hour chart at
entry 1835). -/
theorem c1_trade_plan_ordering_witness :
    ((calculate_trade_plan 10000 1 "EURUSD" "LONG" (1085/1000) TimeFrame.M3).stop_loss
        < 1085/1000 ∧
      (1085/1000 : ℚ) < tpPrice (calculate_trade_plan 10000 1 "EURUSD" "LONG" (1085/1000) TimeFrame.M3) 0 ∧
      tpPrice (calculate_trade_plan 10000 1 "EURUSD" "LONG" (1085/1000) TimeFrame.M3) 0
        < tpPrice (calculate_trade_plan 10000 1 "EURUSD" "LONG" (1085/1000) TimeFrame.M3) 1 ∧
      tpPrice (calculate_trade_plan 10000 1 "EURUSD" "LONG" (1085/1000) TimeFrame.M3) 1
        < tpPrice (calculate_trade_plan 10000 1 "EURUSD" "LONG" (1085/1000) TimeFrame.M3) 2) ∧
    ((1835 : ℚ) < (calculate_trade_plan 10000 1 "XAUUSD" "SHORT" 1835 TimeFrame.H4).stop_loss ∧
      tpPrice (calculate_trade_plan 10000 1 "XAUUSD" "SHORT" 1835 TimeFrame.H4) 0 < 1835 ∧
      tpPrice (calculate_trade_plan 10000 1 "XAUUSD" "SHORT" 1835 TimeFrame.H4) 1
        < tpPrice (calculate_trade_plan 10000 1 "XAUUSD" "SHORT" 1835 TimeFrame.H4) 0 ∧
      tpPrice (calculate_trade_plan 10000 1 "XAUUSD" "SHORT" 1835 TimeFrame.H4) 2
        < tpPrice (calculate_trade_plan 10000 1 "XAUUSD" "SHORT" 1835 TimeFrame.H4) 1) := by
  constructor
  · exact (c1_trade_plan_ordering 10000 1 (1085/1000) "EURUSD" "LONG" TimeFrame.M3
      (calculate_trade_plan 10000 1 "EURUSD" "LONG" (1085/1000) TimeFrame.M3)
      rfl).2.2.1 rfl
  · exact (c1_trade_plan_ordering 10000 1 1835 "XAUUSD" "SHORT" TimeFrame.H4
      (calculate_trade_plan 10000 1 "XAUUSD" "SHORT" 1835 TimeFrame.H4)
      rfl).2.2.2 rfl

/-- C2 counterexample: the classifier does not follow the claimed priority
order (indices, then commodities, then crypto, then forex) and does not
default to FOREX.  "ABCDEF" is a 6-letter alphabetic symbol matching no
keyword, yet it classifies as STOCKS, not FOREX; "XAUBTC" carries the
commodity keyword XAU, yet the crypto check runs first and yields CRYPTO;
"GER30" classifies as STOCKS (there is no INDICES member in `MarketType`
at all). -/
theorem c2_classify_counterexample :
    (get_market_profile "ABCDEF").market_type = MarketType.STOCKS ∧
    (get_market_profile "ABCDEF").market_type ≠ MarketType.FOREX ∧
    (get_market_profile "XAUBTC").market_type = MarketType.CRYPTO ∧
    (get_market_profile "XAUBTC").market_type ≠ MarketType.COMMODITIES ∧
    (get_market_profile "GER30").market_type = MarketType.STOCKS := by
  refine ⟨rfl, ?_, rfl, ?_, rfl⟩ <;> decide

/-- C2 amended: `get_market_profile` first consults the fixed profile table,
then checks crypto keywords, then forex keywords, then commodity keywords,
and classifies every remaining symbol as STOCKS; it is total (no error
path).  Examples: XAUUSD → COMMODITIES (via the table), EURUSD → FOREX,
GER30 → STOCKS. -/
theorem c2_classify_amended :
    (get_market_profile "XAUUSD").market_type = MarketType.COMMODITIES ∧
    (get_market_profile "EURUSD").market_type = MarketType.FOREX ∧
    (get_market_profile "GER30").market_type = MarketType.STOCKS ∧
    (∀ s : String,
      dictGet (dropSlashes (pyUpper s)) initialize_market_profiles = none →
      anyTok (dropSlashes (pyUpper s)) ["BTC", "ETH", "SOL", "XRP", "ADA", "DOT"] = false →
      anyTok (dropSlashes (pyUpper s)) ["EUR", "GBP", "USD", "JPY", "CAD", "AUD", "NZD", "CHF"] = false →
      anyTok (dropSlashes (pyUpper s)) ["XAU", "XAG", "OIL"] = false →
      (get_market_profile s).market_type = MarketType.STOCKS) := by
  refine ⟨rfl, rfl, rfl, ?_⟩
  intro s h1 h2 h3 h4
  simp [get_market_profile, h1, h2, h3, h4]

/-- Witness for C2 amended: the keyword-free symbol QQQQQQ takes the final
fallback and classifies as STOCKS. -/
theorem c2_classify_amended_witness :
    dictGet (dropSlashes (pyUpper "QQQQQQ")) initialize_market_profiles = none ∧
    anyTok (dropSlashes (pyUpper "QQQQQQ")) ["BTC", "ETH", "SOL", "XRP", "ADA", "DOT"] = false ∧
    anyTok (dropSlashes (pyUpper "QQQQQQ")) ["EUR", "GBP", "USD", "JPY", "CAD", "AUD", "NZD", "CHF"] = false ∧
    anyTok (dropSlashes (pyUpper "QQQQQQ")) ["XAU", "XAG", "OIL"] = false ∧
    (get_market_profile "QQQQQQ").market_type = MarketType.STOCKS :=
  ⟨rfl, rfl, rfl, rfl, c2_classify_amended.2.2.2 "QQQQQQ" rfl rfl rfl rfl⟩

/-- C3 counterexample: there is no "calculation failed" short circuit.  With
a stop-pips value of zero, `calculate_position_size` returns the positive
minimum lot size 0.01 — an available, tradable value, not an unavailable
marker; and with a non-positive entry price (0 here), `calculate_trade_plan`
still produces a fully populated plan: three take-profit levels and a
positive position size of 3.33 lots. -/
theorem c3_no_failure_counterexample :
    calculate_position_size 10000 1 0 10 = 1/100 ∧ (0 : ℚ) < 1/100 ∧
    (calculate_trade_plan 10000 1 "EURUSD" "LONG" 0 TimeFrame.M3).position_size = 333/100 ∧
    (calculate_trade_plan 10000 1 "EURUSD" "LONG" 0 TimeFrame.M3).take_profits.length = 3 := by
  have hp : get_market_profile "EURUSD" =
      { symbol := "EURUSD", market_type := .FOREX, avg_daily_range := 70,
        spread := 1/10000, pip_value := 10 } := rfl
  refine ⟨?_, by norm_num, ?_, rfl⟩
  · norm_num [calculate_position_size, round2, roundHalfEven]
  · simp only [calculate_trade_plan, calculate_stop_loss, hp]
    norm_num [calculate_position_size, round2, roundHalfEven, timeframe_stops,
      market_multipliers]

/-- C3 amended: with non-positive stop pips the position-size calculation
skips the division entirely (no division by zero) and short-circuits to the
configured minimum of 0.01 lots; the trade plan itself never fails: it is
always fully populated (three take-profit levels) and its stop-pips value is
always strictly positive, so the division guard is always satisfied on the
trade-plan path. -/
theorem c3_degenerate_inputs_amended :
    (∀ bal rp sp pv : ℚ, sp ≤ 0 → calculate_position_size bal rp sp pv = 1/100) ∧
    (∀ bal rp e : ℚ, ∀ sym dir : String, ∀ tf : TimeFrame,
      (calculate_trade_plan bal rp sym dir e tf).take_profits.length = 3 ∧
      0 < (calculate_trade_plan bal rp sym dir e tf).stop_pips) := by
  constructor
  · intro bal rp sp pv h
    simp only [calculate_position_size]
    rw [if_neg (not_lt.mpr h)]
    norm_num [round2, roundHalfEven]
  · intro bal rp e sym dir tf
    constructor
    · obtain ⟨a, b, c, hl, -⟩ := asc3_elim (rr_ratios_asc tf)
      simp [calculate_trade_plan, calculate_take_profits, hl, tpLoop]
    · have h : (calculate_trade_plan bal rp sym dir e tf).stop_pips =
          timeframe_stops tf *
            market_multipliers (get_market_profile sym).market_type := rfl
      rw [h]
      exact mul_pos (timeframe_stops_pos tf) (market_multipliers_pos _)

/-- Witness for C3 amended: stop pips of -3 yield the 0.01 minimum, and a
concrete trade plan (USDJPY SHORT, 4-hour) has three take-profit levels and
positive stop pips. -/
theorem c3_degenerate_inputs_amended_witness :
    ((-3 : ℚ) ≤ 0 ∧ calculate_position_size 5000 2 (-3) 7 = 1/100) ∧
    ((calculate_trade_plan 10000 1 "USDJPY" "SHORT" 150 TimeFrame.H4).take_profits.length = 3 ∧
      0 < (calculate_trade_plan 10000 1 "USDJPY" "SHORT" 150 TimeFrame.H4).stop_pips) :=
  ⟨⟨by norm_num, c3_degenerate_inputs_amended.1 5000 2 (-3) 7 (by norm_num)⟩,
    c3_degenerate_inputs_amended.2 10000 1 150 "USDJPY" "SHORT" TimeFrame.H4⟩

/-- C9 counterexample: the computed position size is not the raw quotient
(risk amount divided by stop distance in account currency) floored at 0.01:
with balance 10000, risk 1%, 3 stop pips and pip value 10 the quotient is
10/3 = 3.333..., but the code rounds to two decimals first and returns
3.33. -/
theorem c9_position_size_counterexample :
    calculate_position_size 10000 1 3 10 = 333/100 ∧
    max ((10000 * ((1 : ℚ)/100)) / (3 * 10)) (1/100) = 10/3 ∧
    (333/100 : ℚ) ≠ 10/3 := by
  refine ⟨?_, ?_, by norm_num⟩
  · norm_num [calculate_position_size, round2, roundHalfEven]
  · rw [max_eq_left] <;> norm_num

/-- C9 amended: for positive stop pips, the position size equals the
risk amount (balance times risk percent over 100) divided by the stop
distance in account currency (stop pips times pip value), rounded
half-to-even to two decimal places, then floored at the 0.01-lot minimum. -/
theorem c9_position_size_amended (bal rp sp pv : ℚ) (hsp : 0 < sp) :
    calculate_position_size bal rp sp pv =
      max (round2 (bal * (rp / 100) / (sp * pv))) (1/100) := by
  simp only [calculate_position_size, if_pos hsp]
  rcases lt_or_le (round2 (bal * (rp / 100) / (sp * pv))) (1/100) with h | h
  · rw [if_pos h, max_eq_right h.le]
  · rw [if_neg (not_lt.mpr h), max_eq_left h]

/-- Witness for C9 amended: the 10000/1%/3-pip/pip-value-10 instance. -/
theorem c9_position_size_amended_witness :
    (0 : ℚ) < 3 ∧
    calculate_position_size 10000 1 3 10 =
      max (round2 (10000 * ((1 : ℚ) / 100) / (3 * 10))) (1/100) :=
  ⟨by norm_num, c9_position_size_amended 10000 1 3 10 (by norm_num)⟩

/-- C6 counterexample: timeframe normalization performs no numeric-minutes
conversion.  The string "60" is not a key of `tf_map`, so it falls back to
the default M3 (the 3-minute frame) instead of the claimed "1H". -/
theorem c6_normalize_counterexample :
    normalizeTimeframe "60" = TimeFrame.M3 ∧ TimeFrame.M3 ≠ TimeFrame.H1 := by
  exact ⟨rfl, by decide⟩

/-- C6 amended: timeframe normalization is a case-insensitive exact-match
table lookup over the nine labels 1M, 3M, 5M, 15M, 30M, 1H, 4H, 1D, 1W;
any other value — including numeric-minute strings such as "60" — silently
defaults to the 3-minute frame M3.  In particular normalize("1H") = H1 and
normalize("60") = M3. -/
theorem c6_normalize_amended :
    normalizeTimeframe "1H" = TimeFrame.H1 ∧
    normalizeTimeframe "60" = TimeFrame.M3 ∧
    (∀ s : String, dictGet (pyUpper s) tf_map = none →
      normalizeTimeframe s = TimeFrame.M3) := by
  refine ⟨rfl, rfl, ?_⟩
  intro s h
  simp [normalizeTimeframe, h]

/-- Witness for C6 amended: "45" misses the table and normalizes to M3. -/
theorem c6_normalize_amended_witness :
    dictGet (pyUpper "45") tf_map = none ∧
    normalizeTimeframe "45" = TimeFrame.M3 :=
  ⟨rfl, c6_normalize_amended.2.2 "45" rfl⟩

/-- C8: timeframe normalization is idempotent — re-normalizing the canonical
label of any normalization result gives the same result; in particular
normalize(normalize(x)) = normalize(x) for every canonical label x. -/
theorem c8_normalize_idempotent :
    ∀ x : String,
      normalizeTimeframe (TimeFrame.value (normalizeTimeframe x)) =
        normalizeTimeframe x := by
  have h : ∀ t : TimeFrame, normalizeTimeframe (TimeFrame.value t) = t := by
    intro t
    cases t <;> rfl
  intro x
  exact h (normalizeTimeframe x)

/-- C7: as the chart interval grows (1m, 3m, 5m, 15m, 30m, 1H, 4H, 1D, 1W),
the base stop distance is non-decreasing and each of the three risk/reward
ratios is non-decreasing; within every single timeframe the three ratios are
strictly ascending. -/
theorem c7_tables_monotone :
    (∀ t1 t2 : TimeFrame, tfIdx t1 ≤ tfIdx t2 →
      timeframe_stops t1 ≤ timeframe_stops t2 ∧
      ∀ i : Fin 3, (timeframe_rr_ratios t1).getD i 0 ≤
        (timeframe_rr_ratios t2).getD i 0) ∧
    (∀ t : TimeFrame,
      (timeframe_rr_ratios t).getD 0 0 < (timeframe_rr_ratios t).getD 1 0 ∧
      (timeframe_rr_ratios t).getD 1 0 < (timeframe_rr_ratios t).getD 2 0) := by
  constructor
  · intro t1 t2 h
    cases t1 <;> cases t2 <;>
      first
        | exact absurd h (by decide)
        | exact ⟨by norm_num [timeframe_stops],
            fun i => by fin_cases i <;> norm_num [timeframe_rr_ratios]⟩
  · intro t
    cases t <;> exact ⟨by norm_num [timeframe_rr_ratios], by norm_num [timeframe_rr_ratios]⟩

/-- Witness for C7: the 1-minute and weekly timeframes. -/
theorem c7_tables_monotone_witness :
    tfIdx TimeFrame.M1 ≤ tfIdx TimeFrame.W1 ∧
    timeframe_stops TimeFrame.M1 ≤ timeframe_stops TimeFrame.W1 ∧
    (timeframe_rr_ratios TimeFrame.M1).getD 0 0 ≤
      (timeframe_rr_ratios TimeFrame.W1).getD 0 0 :=
  ⟨by decide, (c7_tables_monotone.1 TimeFrame.M1 TimeFrame.W1 (by decide)).1,
    (c7_tables_monotone.1 TimeFrame.M1 TimeFrame.W1 (by decide)).2 0⟩

/-- C4 counterexample: a failed notification dispatch does change the HTTP
status code.  With a well-formed payload, when `bot.send_message` raises,
the handler's `except` returns HTTP 500 — not a 200-level code — with
status "error" in the body. -/
theorem c4_http_status_counterexample :
    webhook (.ok (some (.obj [("pair", .str "EURUSD")]))) "" (fun _ => none)
      (.exc "network error") = (500, "error") ∧
    ¬ (200 ≤ 500 ∧ 500 < 300) :=
  ⟨rfl, by decide⟩

/-- C4 amended: the handler never propagates an exception (it is a total
function into status-code/body pairs, and its only outcomes are
200/"success" and 500/"error").  When `request.get_json` does not raise and
the notification dispatch succeeds, it returns 200 with status "success"
for every payload — including unparseable bodies, whose formatting failure
is absorbed inside `format_telegram_message`.  But a raising
`request.get_json` or a failed notification dispatch is reported with HTTP
status 500 (and body status "error"), not with a 200-level code. -/
theorem c4_http_status_amended :
    (∀ dataOpt : Option JVal, ∀ rawText : String, ∀ loads : String → Option JVal,
      webhook (.ok dataOpt) rawText loads (.ok ()) = (200, "success")) ∧
    (∀ dataOpt : Option JVal, ∀ rawText : String, ∀ loads : String → Option JVal,
      ∀ msg : String,
      webhook (.ok dataOpt) rawText loads (.exc msg) = (500, "error")) ∧
    (∀ getJson : PyOutcome (Option JVal), ∀ rawText : String,
      ∀ loads : String → Option JVal, ∀ send : PyOutcome Unit,
      webhook getJson rawText loads send = (200, "success") ∨
      webhook getJson rawText loads send = (500, "error")) := by
  refine ⟨fun _ _ _ => rfl, fun _ _ _ _ => rfl, ?_⟩
  intro getJson rawText loads send
  cases getJson with
  | exc msg => exact Or.inr rfl
  | ok dataOpt =>
    cases send with
    | ok u => exact Or.inl rfl
    | exc msg => exact Or.inr rfl

/-- C5 counterexample: duplicate suppression is not keyed by
(instrument, direction, price).  Two signals that differ in entry price
(1 versus 2) but agree on symbol, direction and timeframe, submitted 10
seconds apart, yield ACCEPTED then REJECTED — although the claim says two
in-cooldown signals differing in a hashed component are both accepted. -/
theorem c5_dedup_counterexample :
    (add_signal ⟨10000, 1, [], []⟩ "EURUSD" "LONG" 1 "3M" 0).1.isSome = true ∧
    (add_signal (add_signal ⟨10000, 1, [], []⟩ "EURUSD" "LONG" 1 "3M" 0).2
      "EURUSD" "LONG" 2 "3M" 10).1 = none := by
  obtain ⟨h1, h2⟩ := add_signal_accept_fresh ⟨10000, 1, [], []⟩ "EURUSD" "LONG" 1 "3M" 0 rfl
  refine ⟨by rw [h1]; rfl, ?_⟩
  have hl : dictGet (signal_key "EURUSD" "LONG" "3M")
      (add_signal ⟨10000, 1, [], []⟩ "EURUSD" "LONG" 1 "3M" 0).2.last_signal_time =
        some 0 := by
    rw [h2]
    exact dictGet_cons_self _ _ _
  rw [add_signal_reject _ "EURUSD" "LONG" 2 "3M" 10 0 hl (by norm_num)]

/-- C5 amended: duplicate suppression is keyed by the string
symbol_direction_timeframe (the entry price is not part of the key).  An
unseen key is accepted; the same key resubmitted within 300 seconds is
rejected regardless of price; resubmitted once 300 seconds have passed
since the accepted submission, it is accepted again; and a second signal
within the cooldown whose key differs (different symbol, direction or
timeframe) is accepted. -/
theorem c5_dedup_amended (st : BotState) (sym dir tfs sym2 dir2 tfs2 : String)
    (e1 e2 e3 e4 t0 t1 t2 : ℚ)
    (h0 : dictGet (signal_key sym dir tfs) st.last_signal_time = none)
    (h1 : t1 - t0 < 300)
    (h2 : ¬ t2 - t0 < 300)
    (hk : signal_key sym2 dir2 tfs2 ≠ signal_key sym dir tfs)
    (hk0 : dictGet (signal_key sym2 dir2 tfs2) st.last_signal_time = none) :
    (add_signal st sym dir e1 tfs t0).1.isSome = true ∧
    (add_signal (add_signal st sym dir e1 tfs t0).2 sym dir e2 tfs t1).1 = none ∧
    (add_signal (add_signal (add_signal st sym dir e1 tfs t0).2 sym dir e2 tfs t1).2
      sym dir e3 tfs t2).1.isSome = true ∧
    (add_signal (add_signal st sym dir e1 tfs t0).2 sym2 dir2 e4 tfs2 t1).1.isSome = true := by
  obtain ⟨ha, ht⟩ := add_signal_accept_fresh st sym dir e1 tfs t0 h0
  have hl : dictGet (signal_key sym dir tfs)
      (add_signal st sym dir e1 tfs t0).2.last_signal_time = some t0 := by
    rw [ht]
    exact dictGet_cons_self _ _ _
  have hrej := add_signal_reject _ sym dir e2 tfs t1 t0 hl h1
  refine ⟨by rw [ha]; rfl, by rw [hrej], ?_, ?_⟩
  · have hst : (add_signal (add_signal st sym dir e1 tfs t0).2 sym dir e2 tfs t1).2 =
        (add_signal st sym dir e1 tfs t0).2 := by rw [hrej]
    rw [hst, add_signal_accept_stale _ sym dir e3 tfs t2 t0 hl h2]
    rfl
  · have hl2 : dictGet (signal_key sym2 dir2 tfs2)
        (add_signal st sym dir e1 tfs t0).2.last_signal_time = none := by
      rw [ht, dictGet_cons_ne _ _ hk, hk0]
    obtain ⟨ha2, -⟩ := add_signal_accept_fresh _ sym2 dir2 e4 tfs2 t1 hl2
    rw [ha2]
    rfl

/-- Witness for C5 amended: EURUSD LONG 3M at times 0, 10 and 300, with a
GBPUSD signal in between. -/
theorem c5_dedup_amended_witness :
    (dictGet (signal_key "EURUSD" "LONG" "3M")
        (BotState.mk 10000 1 [] []).last_signal_time = none ∧
      (10 : ℚ) - 0 < 300 ∧ ¬ (300 : ℚ) - 0 < 300 ∧
      signal_key "GBPUSD" "LONG" "3M" ≠ signal_key "EURUSD" "LONG" "3M") ∧
    (add_signal ⟨10000, 1, [], []⟩ "EURUSD" "LONG" 1 "3M" 0).1.isSome = true ∧
    (add_signal (add_signal ⟨10000, 1, [], []⟩ "EURUSD" "LONG" 1 "3M" 0).2
      "EURUSD" "LONG" 2 "3M" 10).1 = none ∧
    (add_signal (add_signal (add_signal ⟨10000, 1, [], []⟩ "EURUSD" "LONG" 1 "3M" 0).2
      "EURUSD" "LONG" 2 "3M" 10).2 "EURUSD" "LONG" 1 "3M" 300).1.isSome = true ∧
    (add_signal (add_signal ⟨10000, 1, [], []⟩ "EURUSD" "LONG" 1 "3M" 0).2
      "GBPUSD" "LONG" 1 "3M" 10).1.isSome = true :=
  ⟨⟨rfl, by norm_num, by norm_num, by decide⟩,
    c5_dedup_amended ⟨10000, 1, [], []⟩ "EURUSD" "LONG" "3M" "GBPUSD" "LONG" "3M"
      1 2 1 1 0 10 300 rfl (by norm_num) (by norm_num) (by decide) rfl⟩

/-- C10: when `add_signal` rejects a duplicate (same symbol, direction and
timeframe accepted less than 300 seconds earlier), it returns `False`
(`none` here) and the whole bot state is unchanged: no trade plan, no new
active trade, untouched balance, and the stored last-signal timestamp for
the key keeps its original acceptance time. -/
theorem c10_duplicate_reject_frame (st : BotState) (sym dir tfs : String)
    (e t now : ℚ)
    (h : dictGet (signal_key sym dir tfs) st.last_signal_time = some t)
    (hc : now - t < 300) :
    (add_signal st sym dir e tfs now).1 = none ∧
    (add_signal st sym dir e tfs now).2 = st ∧
    dictGet (signal_key sym dir tfs)
      (add_signal st sym dir e tfs now).2.last_signal_time = some t := by
  have h1 := add_signal_reject st sym dir e tfs now t h hc
  exact ⟨by rw [h1], by rw [h1], by rw [h1]; exact h⟩

/-- Witness for C10: a bot that accepted EURUSD LONG 3M at time 0 rejects
the same signal at time 10 and is left exactly as it was. -/
theorem c10_duplicate_reject_frame_witness :
    (dictGet (signal_key "EURUSD" "LONG" "3M")
        (BotState.mk 10000 1 [(signal_key "EURUSD" "LONG" "3M", 0)] []).last_signal_time =
          some 0 ∧ (10 : ℚ) - 0 < 300) ∧
    (add_signal ⟨10000, 1, [(signal_key "EURUSD" "LONG" "3M", 0)], []⟩
      "EURUSD" "LONG" 1 "3M" 10).1 = none ∧
    (add_signal ⟨10000, 1, [(signal_key "EURUSD" "LONG" "3M", 0)], []⟩
      "EURUSD" "LONG" 1 "3M" 10).2 = ⟨10000, 1, [(signal_key "EURUSD" "LONG" "3M", 0)], []⟩ ∧
    dictGet (signal_key "EURUSD" "LONG" "3M")
      (add_signal ⟨10000, 1, [(signal_key "EURUSD" "LONG" "3M", 0)], []⟩
        "EURUSD" "LONG" 1 "3M" 10).2.last_signal_time = some 0 :=
  ⟨⟨dictGet_cons_self _ _ _, by norm_num⟩,
    c10_duplicate_reject_frame ⟨10000, 1, [(signal_key "EURUSD" "LONG" "3M", 0)], []⟩
      "EURUSD" "LONG" "3M" 1 0 10 (dictGet_cons_self _ _ _) (by norm_num)⟩

end Scalpbot
